import Mathlib

/-!
# Verification of the industry-themed git panels

A shallow embedding, in Lean 4, of the behaviourally relevant parts of the
`principal-ade/industry-themed-git-panels` repository: the pure formatting
functions (`src/utils/formatters.ts`), the derived display lists, event
handlers and top-level render branches of the Commit History and Pull
Requests panels (`src/panels/GitCommitHistoryPanel.tsx`,
`src/panels/GitPullRequestsPanel.tsx` and the variant revisions of those
panels), the Commit Detail panel's event-driven state machine
(`src/panels/GitCommitDetailPanel.tsx`), the boolean indicator row of the
Git Config panel, and the refresh error-handling pattern shared by the
panels.

JavaScript values are embedded explicitly where their semantics matter:
 * a JS `number` that can be `NaN` is embedded as `JsNum`
   (`NaN` is falsy and every comparison against it is false);
 * an optional field `f?: T` is embedded as `Option T`, and an optional
   nullable field `f?: T | null` as `Option (Option T)`
   (`none` = the field is absent / `undefined`, `some none` = `null`);
 * `Array.prototype.sort(cmp)` with the consistent comparator
   `(a, b) => timeB - timeA` is, by the ECMAScript 2019 specification,
   the unique stable permutation that is sorted by parsed time descending;
   it is embedded as a stable insertion sort with the same output;
 * `Math.floor` division of millisecond differences is `Int.fdiv`.
-/

/-! ## JavaScript value helpers -/

/-- A JavaScript `number` restricted to the values the panels can meet:
`NaN` or a rational.  `NaN` is falsy and every ordering comparison with it
is false. -/
inductive JsNum where
  | nan : JsNum
  | num (q : ℚ) : JsNum
deriving DecidableEq, Repr

/-- JS truthiness of a number: `NaN` and `0` are falsy. -/
def jsTruthy : JsNum → Bool
  | .nan => false
  | .num q => q != 0

/-- The JS comparison `n > 0`; false for `NaN`. -/
def jsGtZero : JsNum → Bool
  | .nan => false
  | .num q => 0 < q

/-- The JS expression `s || default` for an optional string `s`:
`undefined` and the empty string both fall back to the default. -/
def jsOrString (s : Option String) (dflt : String) : String :=
  match s with
  | none => dflt
  | some v => if v = "" then dflt else v

/-! ## Formatters (`src/utils/formatters.ts`) -/

/-- The bucket cascade of `formatRelativeTime`
(`src/utils/formatters.ts` lines 15-28), taking the already computed
`diffMs = now.getTime() - date.getTime()`.  Each count is obtained with
`Math.floor`, i.e. `Int.fdiv`. -/
def relTimeOfDiff (diffMs : Int) : String :=
  let minutes := Int.fdiv diffMs (1000 * 60)
  if minutes < 1 then "Just now"
  else if minutes < 60 then
    toString minutes ++ " minute" ++ (if minutes = 1 then "" else "s") ++ " ago"
  else
    let hours := Int.fdiv minutes 60
    if hours < 24 then
      toString hours ++ " hour" ++ (if hours = 1 then "" else "s") ++ " ago"
    else
      let days := Int.fdiv hours 24
      if days = 1 then "Yesterday"
      else if days < 30 then toString days ++ " days ago"
      else
        let months := Int.fdiv days 30
        if months < 12 then
          toString months ++ " month" ++ (if months = 1 then "" else "s") ++ " ago"
        else
          let years := Int.fdiv months 12
          toString years ++ " year" ++ (if years = 1 then "" else "s") ++ " ago"

/-- `formatRelativeTime` (`src/utils/formatters.ts` lines 8-29).
`parse` stands for the host's `new Date(s).getTime()`, returning `none`
when the result is `NaN`; `dateStr = none` is an `undefined` argument, and
the empty string is falsy (`if (!dateStr) return 'Unknown'`). -/
def formatRelativeTime (parse : String → Option Int) (now : Int)
    (dateStr : Option String) : String :=
  match dateStr with
  | none => "Unknown"
  | some s =>
    if s = "" then "Unknown"
    else
      match parse s with
      | none => "Unknown"
      | some t => relTimeOfDiff (now - t)

/-! ## Commit history data model (`src/types/index.ts`) -/

/-- `GitCommitInfo` (`src/types/index.ts` lines 53-64). -/
structure GitCommitInfo where
  hash : String
  message : String
  author : String
  authorEmail : Option String := none
  date : String
deriving DecidableEq, Repr

/-- `CommitsSliceData` (`src/types/index.ts` lines 69-71). -/
structure CommitsSliceData where
  commits : List GitCommitInfo
deriving DecidableEq, Repr

/-! ## The commit display list (`src/panels/GitCommitHistoryPanel.tsx`) -/

/-- Insert a commit into a list so that every earlier element with a
strictly greater parsed time stays in front of it.  Building the sort this
way reproduces the unique stable descending order that
`Array.prototype.sort` (stable since ES2019) produces for the comparator
`(a, b) => timeB - timeA`. -/
def insertByTimeDesc (getTime : String → Int) (c : GitCommitInfo) :
    List GitCommitInfo → List GitCommitInfo
  | [] => [c]
  | d :: ds =>
    if getTime c.date < getTime d.date then d :: insertByTimeDesc getTime c ds
    else c :: d :: ds

/-- Stable sort of commits by parsed date, newest first: the embedding of
`commits.sort((a, b) => new Date(b.date).getTime() - new Date(a.date).getTime())`.
`getTime` stands for `s => new Date(s).getTime()`. -/
def stableSortByTimeDesc (getTime : String → Int) :
    List GitCommitInfo → List GitCommitInfo
  | [] => []
  | c :: cs => insertByTimeDesc getTime c (stableSortByTimeDesc getTime cs)

/-- `sortedCommits` (`src/panels/GitCommitHistoryPanel.tsx` lines 34-40 and
the variant revision of the same panel, lines 33-39): the code slices the
raw array to the first `limit` entries FIRST and only then sorts that
prefix descending by parsed date. -/
def sortedCommits (getTime : String → Int) (limit : Nat)
    (commits : List GitCommitInfo) : List GitCommitInfo :=
  stableSortByTimeDesc getTime (commits.take limit)

/-- The display list as the specification describes it: the whole commits
array sorted descending by parsed date (stable), then capped to the first
`limit` entries — "the panel shows the newest min(limit, length) commits,
newest first". -/
def specDisplayList (getTime : String → Int) (limit : Nat)
    (commits : List GitCommitInfo) : List GitCommitInfo :=
  (stableSortByTimeDesc getTime commits).take limit

/-- A concrete stand-in for `s => new Date(s).getTime()` used by closed
counterexamples and witnesses: the length of the date string. -/
def demoTime (s : String) : Int := s.length

/-- The initial display limit of the Commit History panel:
`useState(25)` (`src/panels/GitCommitHistoryPanel.tsx` line 24). -/
def initialCommitLimit : JsNum := .num 25

/-- The `commit-history:set-limit` handler
(`src/panels/GitCommitHistoryPanel.tsx` lines 55-60, identical in the
variant revision lines 54-59): `const newLimit = event.payload?.limit;
if (newLimit && newLimit > 0) setLimit(newLimit)`.  `payload = none`
models a missing payload or a payload without a `limit` field. -/
def setLimitStep (current : JsNum) (payload : Option JsNum) : JsNum :=
  match payload with
  | none => current
  | some n => if jsTruthy n && jsGtZero n then n else current

/-! ## Slice context as the panels consume it (section 4.1 of the spec) -/

/-- The part of a host `DataSlice` the panels dereference: `slice?.data`.
`data = none` models `data: undefined`. -/
structure SliceVal (α : Type) where
  data : Option α
deriving DecidableEq, Repr

/-- The slice-context surface a panel reads for its one slice name:
the result of `getSlice(name)` (`none` = the slice does not exist),
`hasSlice(name)`, `isSliceLoading(name)` and
`context.currentScope.repository` truthiness. -/
structure PanelCtx (α : Type) where
  getSlice : Option (SliceVal α)
  hasSlice : Bool
  isSliceLoading : Bool
  repositoryConnected : Bool
deriving DecidableEq, Repr

/-- `commitsSlice?.data?.commits ?? []`
(`src/panels/GitCommitHistoryPanel.tsx` line 31). -/
def commitsOf (ctx : PanelCtx CommitsSliceData) : List GitCommitInfo :=
  match ctx.getSlice with
  | none => []
  | some sv =>
    match sv.data with
    | none => []
    | some d => d.commits

/-- The mutually exclusive top-level render outcomes of the Commit History
panel. -/
inductive HistoryDisplay where
  | stateMessage (msg : String)
  | mainView (showLoading : Bool) (showEmptyNote : Bool)
      (list : List GitCommitInfo)
deriving DecidableEq, Repr

/-- Top-level render branches of `GitCommitHistoryPanel`
(`src/panels/GitCommitHistoryPanel.tsx` lines 100-232): no repository →
state message; no `commits` slice → state message; otherwise the main view
whose loading note shows iff `isLoading && commits.length === 0`, whose
empty note shows iff `!isLoading && sortedCommits.length === 0`, and whose
list is `sortedCommits`. -/
def renderCommitHistory (getTime : String → Int) (limit : Nat)
    (ctx : PanelCtx CommitsSliceData) : HistoryDisplay :=
  let commits := commitsOf ctx
  if !ctx.repositoryConnected then
    .stateMessage "Connect a local repository to see commit history."
  else if !ctx.hasSlice then
    .stateMessage "Commit history data is not available."
  else
    .mainView (ctx.isSliceLoading && commits.isEmpty)
      (!ctx.isSliceLoading && (sortedCommits getTime limit commits).isEmpty)
      (sortedCommits getTime limit commits)

/-! ## Pull request data model (`src/types/index.ts`) -/

/-- `PullRequestUser` (`src/types/index.ts` lines 80-84). -/
structure PullRequestUser where
  login : String
  avatar_url : Option String := none
  html_url : Option String := none
deriving DecidableEq, Repr

/-- `PullRequestRef` (`src/types/index.ts` lines 89-92). -/
structure PullRequestRef where
  ref : String
  sha : Option String := none
deriving DecidableEq, Repr

/-- The `state: 'open' | 'closed'` union. -/
inductive PRState where
  | opened : PRState
  | closed : PRState
deriving DecidableEq, Repr

/-- The string the JS value of a `PRState` compares as
(`pr.state === filter`). -/
def prStateStr : PRState → String
  | .opened => "open"
  | .closed => "closed"

/-- `PullRequestInfo` (`src/types/index.ts` lines 98-137).  A field typed
`T | null` and optional is `Option (Option T)`: `none` = the field is
absent (`undefined`), `some none` = explicit `null`. -/
structure PullRequestInfo where
  id : Int
  number : Int
  title : String
  body : Option (Option String) := none
  state : PRState
  draft : Option Bool := none
  html_url : String
  user : Option (Option PullRequestUser) := none
  created_at : String
  updated_at : String
  closed_at : Option (Option String) := none
  merged_at : Option (Option String) := none
  base : Option (Option PullRequestRef) := none
  head : Option (Option PullRequestRef) := none
  comments : Option Int := none
  review_comments : Option Int := none
  changed_files : Option Int := none
  additions : Option Int := none
  deletions : Option Int := none
deriving DecidableEq, Repr

/-- `PullRequestsSliceData` (`src/types/index.ts` lines 142-148). -/
structure PullRequestsSliceData where
  pullRequests : List PullRequestInfo
  owner : Option String := none
  repo : Option String := none
deriving DecidableEq, Repr

/-! ## Pull Requests panel (`src/panels/GitPullRequestsPanel.tsx` and the
three-filter variant revision of the same panel) -/

/-- `const isMerged = pr.merged_at !== null`
(`src/panels/GitPullRequestsPanel.tsx` line 337, variant revision line 354,
PR detail panel line corresponding to `GitConfigPanel.tsx` source line
1335): the STRICT JS inequality, which is true for a set date string AND
for an absent (`undefined`) field, and false only for the literal `null`. -/
def prIsMerged (pr : PullRequestInfo) : Bool :=
  pr.merged_at != some none

/-- The status word of the closed-state annotation on a pull-request list
card (`src/panels/GitPullRequestsPanel.tsx` lines 436-446, variant revision
lines 486-496): rendered only when the PR is not open, as
`isMerged ? 'Merged' : 'Closed'`. -/
def prCardLabel (pr : PullRequestInfo) : Option String :=
  if pr.state = .opened then none
  else some (if prIsMerged pr then "Merged" else "Closed")

/-- `statusLabel` of the PR Detail panel
(`isOpen ? 'Open' : isMerged ? 'Merged' : 'Closed'`, source line 1344 of
the concatenated `GitConfigPanel.tsx` file; the badge of the variant list
revision, line 430, computes the same word). -/
def prDetailStatusLabel (pr : PullRequestInfo) : String :=
  if pr.state = .opened then "Open"
  else if prIsMerged pr then "Merged"
  else "Closed"

/-- `counts.open`: `pullRequests.filter(pr => pr.state === 'open').length`
(`src/panels/GitPullRequestsPanel.tsx` line 72). -/
def countOpen (prs : List PullRequestInfo) : Nat :=
  (prs.filter (fun pr => pr.state == .opened)).length

/-- `counts.closed` (`src/panels/GitPullRequestsPanel.tsx` line 73). -/
def countClosed (prs : List PullRequestInfo) : Nat :=
  (prs.filter (fun pr => pr.state == .closed)).length

/-- `counts.all: pullRequests.length` (variant revision line 82). -/
def countAll (prs : List PullRequestInfo) : Nat :=
  prs.length

/-- `filteredPullRequests` of the two-filter revision
(`src/panels/GitPullRequestsPanel.tsx` lines 66-68):
`pullRequests.filter(pr => pr.state === filter)`. -/
def filteredPullRequestsV1 (filter : String) (prs : List PullRequestInfo) :
    List PullRequestInfo :=
  prs.filter (fun pr => prStateStr pr.state == filter)

/-- `filteredPullRequests` of the three-filter variant revision (lines
71-76): `filter === 'all'` keeps everything, otherwise filter by state. -/
def filteredPullRequestsV2 (filter : String) (prs : List PullRequestInfo) :
    List PullRequestInfo :=
  if filter = "all" then prs
  else prs.filter (fun pr => prStateStr pr.state == filter)

/-- The `pull-requests:set-filter` handler of the two-filter revision
(`src/panels/GitPullRequestsPanel.tsx` lines 54-59):
`if (newFilter && ['open', 'closed'].includes(newFilter)) setFilter(newFilter)`. -/
def setFilterStepV1 (current : String) (payload : Option String) : String :=
  match payload with
  | none => current
  | some f => if f ≠ "" ∧ (f = "open" ∨ f = "closed") then f else current

/-- The `pull-requests:set-filter` handler of the three-filter variant
revision (lines 59-64):
`if (newFilter && ['all', 'open', 'closed'].includes(newFilter))`. -/
def setFilterStepV2 (current : String) (payload : Option String) : String :=
  match payload with
  | none => current
  | some f =>
    if f ≠ "" ∧ (f = "all" ∨ f = "open" ∨ f = "closed") then f else current

/-- `prSlice?.data?.pullRequests ?? []`
(`src/panels/GitPullRequestsPanel.tsx` line 39). -/
def prsOf (ctx : PanelCtx PullRequestsSliceData) : List PullRequestInfo :=
  match ctx.getSlice with
  | none => []
  | some sv =>
    match sv.data with
    | none => []
    | some d => d.pullRequests

/-- The mutually exclusive top-level render outcomes of the Pull Requests
panel. -/
inductive PRDisplay where
  | loadingView
  | noRepoView
  | unavailableView
  | listView (filtered : List PullRequestInfo)
      (openCount closedCount : Nat)
deriving DecidableEq, Repr

/-- Top-level render branches of `GitPullRequestsPanel`
(`src/panels/GitPullRequestsPanel.tsx` lines 162-327; the variant revision,
lines 170-343, orders its early returns identically): the loading check
`isLoading && pullRequests.length === 0` comes BEFORE the repository and
`hasSlice` checks. -/
def renderPullRequests (filter : String)
    (ctx : PanelCtx PullRequestsSliceData) : PRDisplay :=
  let prs := prsOf ctx
  if ctx.isSliceLoading && prs.isEmpty then .loadingView
  else if !ctx.repositoryConnected then .noRepoView
  else if !ctx.hasSlice then .unavailableView
  else .listView (filteredPullRequestsV1 filter prs) (countOpen prs)
    (countClosed prs)

/-! ## Commit Detail panel (`src/panels/GitCommitDetailPanel.tsx`) -/

/-- Commit stats.  Modelled from the spec: `GitCommitDetail` is imported
from `../types` but its declaration is not among the provided sources;
section 3 of the spec gives `stats:{additions,deletions,total}`. -/
structure CommitStats where
  additions : Int
  deletions : Int
  total : Int
deriving DecidableEq, Repr

/-- File status union of a commit detail file entry.  Modelled from the
spec: `status: added|modified|removed|renamed` (section 3). -/
inductive CommitFileStatus where
  | added | modified | removed | renamed
deriving DecidableEq, Repr

/-- A changed file of a commit detail.  Modelled from the spec:
`files:[{filename, status, additions, deletions, changes,
previous_filename?}]` (section 3). -/
structure CommitFileInfo where
  filename : String
  status : CommitFileStatus
  additions : Int
  deletions : Int
  changes : Int
  previous_filename : Option String := none
deriving DecidableEq, Repr

/-- `GitCommitDetail`.  Modelled from the spec: "extends commit info with
`htmlUrl?`, `stats:{additions,deletions,total}`, `files:[...]`"
(section 3); the declaration itself is not among the provided sources. -/
structure GitCommitDetail where
  hash : String
  message : String
  author : String
  authorEmail : Option String := none
  date : String
  htmlUrl : Option String := none
  stats : CommitStats
  files : List CommitFileInfo := []
deriving DecidableEq, Repr

/-- The local state of `GitCommitDetailPanelContent`
(`src/panels/GitCommitDetailPanel.tsx` lines 49-51): `selectedCommit`,
`isLoading`, `error`. -/
structure DetailState where
  selectedCommit : Option GitCommitDetail
  isLoading : Bool
  error : Option String
deriving DecidableEq, Repr

/-- The initial detail-panel state: `useState(null)`, `useState(false)`,
`useState(null)`. -/
def initialDetailState : DetailState :=
  { selectedCommit := none, isLoading := false, error := none }

/-- The inbound events of the Commit Detail panel.  `loaded none` models a
`:loaded` event whose payload carries no commit; `errored none` models an
`:error` event whose payload carries no error string. -/
inductive DetailEvent where
  | loading (hash : String)
  | loaded (commit : Option GitCommitDetail)
  | errored (hash : String) (err : Option String)
deriving DecidableEq, Repr

/-- The three event handlers of the Commit Detail panel
(`src/panels/GitCommitDetailPanel.tsx` lines 54-91):
`:loading` sets `isLoading=true`, `error=null`; `:loaded` with a commit in
the payload sets the commit and clears loading and error (and does nothing
without one); `:error` sets `error = event.payload?.error || 'Failed to
load commit'` and `isLoading=false`. -/
def detailStep (s : DetailState) : DetailEvent → DetailState
  | .loading _ => { s with isLoading := true, error := none }
  | .loaded c =>
    match c with
    | some commit =>
      { selectedCommit := some commit, isLoading := false, error := none }
    | none => s
  | .errored _ e =>
    { s with error := some (jsOrString e "Failed to load commit"),
             isLoading := false }

/-- `handleClose` (`src/panels/GitCommitDetailPanel.tsx` lines 93-104):
clears the selected commit and the error (it does NOT clear `isLoading`)
and emits `git-panels.commit:deselected`.  The second component lists the
event types emitted. -/
def detailClose (s : DetailState) : DetailState × List String :=
  ({ s with selectedCommit := none, error := none },
   ["git-panels.commit:deselected"])

/-- What the Commit Detail panel shows, one constructor per mutually
exclusive render branch. -/
inductive DetailDisplay where
  | loadingView
  | errorView (message : String)
  | emptyView
  | loadedView (shortHash : String) (firstLine : String)
      (stats : CommitStats)
deriving DecidableEq, Repr

/-- JS truthiness of the `error` state variable (`if (error)`):
`null` and the empty string are falsy. -/
def strTruthy : Option String → Bool
  | none => false
  | some s => s != ""

/-- `message.split('\n')[0]`: the characters before the first newline
(the whole string when it has none). -/
def firstLineOf (s : String) : String :=
  String.mk (s.data.takeWhile (fun c => c ≠ '\n'))

/-- The render cascade of the Commit Detail panel
(`src/panels/GitCommitDetailPanel.tsx` lines 114-416): loading first, then
error, then the empty placeholder, then the loaded view with
`shortHash = selectedCommit.hash.substring(0, 8)` (line 246), the first
line of the message (line 247) and the stats badge (lines 298-322). -/
def renderDetail (s : DetailState) : DetailDisplay :=
  if s.isLoading then .loadingView
  else if strTruthy s.error then .errorView ((s.error).getD "")
  else
    match s.selectedCommit with
    | none => .emptyView
    | some c => .loadedView (c.hash.take 8) (firstLineOf c.message) c.stats

/-! ## Git Config panel boolean rows (`src/panels/GitConfigPanel.tsx`) -/

/-- The `boolean | string` value a `BooleanConfigRow` receives. -/
inductive ConfigValue where
  | bool (b : Bool)
  | str (s : String)
deriving DecidableEq, Repr

/-- `String(value)` for a defined config value. -/
def jsStringOfConfigValue : ConfigValue → String
  | .bool b => cond b "true" "false"
  | .str s => s

/-- `BooleanConfigRow` (`src/panels/GitConfigPanel.tsx` lines 751-839):
`isEnabled = value === true || value === 'true'`,
`isDisabled = value === false || value === 'false'`,
`isConfigured = value !== undefined`; a configured value renders
`Enabled` / `Disabled` / `String(value)`, an unconfigured one renders
`Not set`. -/
def booleanConfigIndicator (value : Option ConfigValue) : String :=
  let isEnabled := value == some (.bool true) || value == some (.str "true")
  let isDisabled :=
    value == some (.bool false) || value == some (.str "false")
  let isConfigured := value != none
  if isConfigured then
    if isEnabled then "Enabled"
    else if isDisabled then "Disabled"
    else jsStringOfConfigValue ((value).getD (.str ""))
  else "Not set"

/-- The values the claim about the tri-state indicator quantifies over:
boolean-valued settings, i.e. `undefined`, a boolean, or one of the two
boolean-denoting strings. -/
def IsBooleanValued (value : Option ConfigValue) : Prop :=
  value = none ∨ (∃ b, value = some (.bool b)) ∨
    value = some (.str "true") ∨ value = some (.str "false")

/-! ## Refresh error handling (section 7 of the spec) -/

/-- The `handleRefresh` pattern every panel repeats
(`src/panels/GitCommitHistoryPanel.tsx` lines 66-72,
`src/panels/GitPullRequestsPanel.tsx` lines 77-83, and the event-triggered
variants at lines 46-52 resp. 45-51): `try { await context.refresh(...) }
catch (error) { console.error('...Refresh failed:', error) }`.
`ui` is the panel's local UI state, untouched by the handler;
`refreshResult` is the outcome of the host's `refresh()` promise; the
result is the handler's own outcome (an `Except.error` would be an
exception escaping the handler) together with the console log lines. -/
def handleRefresh {σ : Type} (logTag : String) (ui : σ)
    (refreshResult : Except String Unit) : Except String (σ × List String) :=
  match refreshResult with
  | .ok _ => .ok (ui, [])
  | .error e => .ok (ui, [logTag ++ "Refresh failed: " ++ e])

/-! ## Concrete values for closed counterexamples and witnesses -/

/-- An older commit whose `date` parses (under `demoTime`) to 1. -/
def demoCommitOld : GitCommitInfo :=
  { hash := "aaaa1111", message := "older commit", author := "alice",
    date := "d" }

/-- A newer commit whose `date` parses (under `demoTime`) to 2. -/
def demoCommitNew : GitCommitInfo :=
  { hash := "bbbb2222", message := "newer commit", author := "bob",
    date := "dd" }

/-- A pull-requests slice context whose slice is absent
(`getSlice` undefined, `hasSlice = false`) but whose `isSliceLoading`
reports `true`, with a repository connected. -/
def demoAbsentLoadingCtx : PanelCtx PullRequestsSliceData :=
  { getSlice := none, hasSlice := false, isSliceLoading := true,
    repositoryConnected := true }

/-- A closed pull request whose optional `merged_at` field is left unset
(`undefined`), as the claim about status labels allows. -/
def demoClosedUnsetPR : PullRequestInfo :=
  { id := 1, number := 1, title := "closed, merged_at unset",
    state := .closed, html_url := "https://example.invalid/pr/1",
    created_at := "2024-01-01T00:00:00Z",
    updated_at := "2024-01-02T00:00:00Z" }

/-- A closed pull request merged at an explicit date. -/
def demoMergedPR : PullRequestInfo :=
  { id := 2, number := 2, title := "merged", state := .closed,
    html_url := "https://example.invalid/pr/2",
    created_at := "2024-01-01T00:00:00Z",
    updated_at := "2024-01-03T00:00:00Z",
    merged_at := some (some "2024-01-03T00:00:00Z") }

/-- A closed pull request with an explicit `merged_at: null`. -/
def demoClosedNullPR : PullRequestInfo :=
  { id := 3, number := 3, title := "closed without merge",
    state := .closed, html_url := "https://example.invalid/pr/3",
    created_at := "2024-01-01T00:00:00Z",
    updated_at := "2024-01-04T00:00:00Z", merged_at := some none }

/-- A commit detail payload for the detail-panel trace witness. -/
def demoCommitDetail : GitCommitDetail :=
  { hash := "0123456789abcdef0123456789abcdef01234567",
    message := "feat: add detail panel\n\nLonger body text.",
    author := "alice", date := "2024-01-05T00:00:00Z",
    stats := { additions := 3, deletions := 1, total := 4 } }

/-! ## Helper lemmas about the stable descending sort -/

theorem insertByTimeDesc_perm (g : String → Int) (c : GitCommitInfo)
    (l : List GitCommitInfo) :
    List.Perm (insertByTimeDesc g c l) (c :: l) := by
  induction l with
  | nil => rfl
  | cons d ds ih =>
    unfold insertByTimeDesc
    split
    · exact (ih.cons d).trans (List.Perm.swap c d ds)
    · exact List.Perm.refl _

theorem stableSortByTimeDesc_perm (g : String → Int)
    (l : List GitCommitInfo) :
    List.Perm (stableSortByTimeDesc g l) l := by
  induction l with
  | nil => rfl
  | cons c cs ih =>
    exact (insertByTimeDesc_perm g c _).trans (ih.cons c)

theorem pairwise_insertByTimeDesc (g : String → Int) (c : GitCommitInfo)
    (l : List GitCommitInfo)
    (h : l.Pairwise (fun a b => g b.date ≤ g a.date)) :
    (insertByTimeDesc g c l).Pairwise (fun a b => g b.date ≤ g a.date) := by
  induction l with
  | nil => simp [insertByTimeDesc]
  | cons d ds ih =>
    rw [List.pairwise_cons] at h
    obtain ⟨hd, hds⟩ := h
    unfold insertByTimeDesc
    split
    · rename_i hlt
      rw [List.pairwise_cons]
      refine ⟨?_, ih hds⟩
      intro x hx
      rw [(insertByTimeDesc_perm g c ds).mem_iff] at hx
      rcases List.mem_cons.mp hx with rfl | hx
      · exact le_of_lt hlt
      · exact hd x hx
    · rename_i hge
      rw [List.pairwise_cons]
      refine ⟨?_, List.pairwise_cons.mpr ⟨hd, hds⟩⟩
      intro x hx
      rcases List.mem_cons.mp hx with rfl | hx
      · exact not_lt.mp hge
      · exact le_trans (hd x hx) (not_lt.mp hge)

theorem sorted_stableSortByTimeDesc (g : String → Int)
    (l : List GitCommitInfo) :
    (stableSortByTimeDesc g l).Pairwise
      (fun a b => g b.date ≤ g a.date) := by
  induction l with
  | nil => simp [stableSortByTimeDesc]
  | cons c cs ih => exact pairwise_insertByTimeDesc g c _ ih

theorem filter_insertByTimeDesc (g : String → Int) (c : GitCommitInfo)
    (k : Int) (l : List GitCommitInfo) :
    (insertByTimeDesc g c l).filter (fun d => g d.date == k)
      = if g c.date = k then
          c :: l.filter (fun d => g d.date == k)
        else l.filter (fun d => g d.date == k) := by
  induction l with
  | nil =>
    by_cases hk : g c.date = k <;>
      simp [insertByTimeDesc, List.filter_cons, hk]
  | cons d ds ih =>
    unfold insertByTimeDesc
    split
    · rename_i hlt
      by_cases hk : g c.date = k
      · have hdk : ¬ g d.date = k := by omega
        simp [List.filter_cons, hk, hdk, ih]
      · simp only [List.filter_cons, ih, if_neg hk]
    · rename_i hge
      by_cases hk : g c.date = k <;> simp [List.filter_cons, hk]

theorem filter_stableSortByTimeDesc (g : String → Int) (k : Int)
    (l : List GitCommitInfo) :
    (stableSortByTimeDesc g l).filter (fun d => g d.date == k)
      = l.filter (fun d => g d.date == k) := by
  induction l with
  | nil => rfl
  | cons c cs ih =>
    rw [stableSortByTimeDesc, filter_insertByTimeDesc]
    by_cases hk : g c.date = k <;> simp [List.filter_cons, hk, ih]

/-! ## C1: the commit display list -/

/-- C1 (counterexample): with two commits, the older one first in the
slice array and the display limit set to 1, the panel displays the OLDER
commit — `commits.slice(0, limit).sort(...)` caps before sorting — while
the claim ("the first `limit` elements of the full commits array sorted
descending by parsed date, i.e. the newest min(limit, length) commits")
demands the newer one. -/
theorem sortedCommits_ne_specDisplayList :
    sortedCommits demoTime 1 [demoCommitOld, demoCommitNew]
      = [demoCommitOld] ∧
    specDisplayList demoTime 1 [demoCommitOld, demoCommitNew]
      = [demoCommitNew] ∧
    sortedCommits demoTime 1 [demoCommitOld, demoCommitNew]
      ≠ specDisplayList demoTime 1 [demoCommitOld, demoCommitNew] := by
  decide

/-- C1 (amended): for every commits array and positive display limit, the
displayed list is the first min(limit, length) elements of the INPUT array
sorted non-increasingly by parsed date: it is sorted descending, it is a
permutation of the first `limit` input elements, ties between equal
timestamps preserve the original input order (for every timestamp, the
displayed subsequence with that timestamp equals that of the capped
input), and its length is min(limit, length). -/
theorem sortedCommits_characterization (g : String → Int) (limit : Nat)
    (commits : List GitCommitInfo) (_hpos : 0 < limit) :
    (sortedCommits g limit commits).Pairwise
      (fun a b => g b.date ≤ g a.date) ∧
    (∀ k : Int,
      (sortedCommits g limit commits).filter (fun c => g c.date == k)
        = (commits.take limit).filter (fun c => g c.date == k)) ∧
    (sortedCommits g limit commits).Perm (commits.take limit) ∧
    (sortedCommits g limit commits).length = min limit commits.length := by
  refine ⟨sorted_stableSortByTimeDesc g _,
    fun k => filter_stableSortByTimeDesc g k _,
    stableSortByTimeDesc_perm g _, ?_⟩
  rw [sortedCommits, (stableSortByTimeDesc_perm g _).length_eq,
    List.length_take]

/-- C1 (witness): the characterization applied at limit 25 to a concrete
two-commit slice. -/
theorem sortedCommits_characterization_witness :
    0 < 25 ∧
    (sortedCommits demoTime 25 [demoCommitNew, demoCommitOld]).filter
      (fun c => demoTime c.date == 2) = [demoCommitNew] ∧
    (sortedCommits demoTime 25 [demoCommitNew, demoCommitOld]).length
      = min 25 2 := by
  have h := sortedCommits_characterization demoTime 25
    [demoCommitNew, demoCommitOld] (by decide)
  refine ⟨by decide, ?_, ?_⟩
  · rw [h.2.1 2]; decide
  · rw [h.2.2.2]; decide

/-! ## C2: absent slice versus loading indicator -/

/-- C2 (counterexample): the Pull Requests panel checks
`isLoading && pullRequests.length === 0` BEFORE `hasSlice`, so a context
whose slice is absent (`hasSlice = false`) but whose `isSliceLoading`
reports `true` makes the panel render the loading indicator, not the
unavailable-state message. -/
theorem renderPullRequests_loading_despite_absent_slice :
    demoAbsentLoadingCtx.hasSlice = false ∧
    demoAbsentLoadingCtx.isSliceLoading = true ∧
    renderPullRequests "open" demoAbsentLoadingCtx = .loadingView ∧
    renderPullRequests "open" demoAbsentLoadingCtx ≠ .unavailableView := by
  decide

/-- C2 (amended): with `hasSlice = false` the Commit History panel always
renders a static state message (never the loading indicator, never list
content), regardless of `isSliceLoading`; the Pull Requests panel does so
only provided `isSliceLoading = false` — which the host contract
guarantees for nonexistent slices — rendering the unavailable-state
message when a repository is connected and the no-repository message
otherwise. -/
theorem panels_absent_slice_state (g : String → Int) (limit : Nat)
    (filter : String) (ctx : PanelCtx CommitsSliceData)
    (pctx : PanelCtx PullRequestsSliceData)
    (hc : ctx.hasSlice = false) (hp : pctx.hasSlice = false)
    (hpl : pctx.isSliceLoading = false) :
    (∃ m, renderCommitHistory g limit ctx = .stateMessage m) ∧
    (pctx.repositoryConnected = true →
      renderPullRequests filter pctx = .unavailableView) ∧
    (pctx.repositoryConnected = false →
      renderPullRequests filter pctx = .noRepoView) := by
  refine ⟨?_, ?_, ?_⟩
  · unfold renderCommitHistory
    cases hrep : ctx.repositoryConnected <;> simp [hrep, hc]
  · intro hr
    unfold renderPullRequests
    simp [hp, hpl, hr]
  · intro hr
    unfold renderPullRequests
    simp [hp, hpl, hr]

/-- C2 (witness): the amended statement applied to concrete contexts whose
slice is absent and not loading. -/
theorem panels_absent_slice_state_witness :
    (∃ m, renderCommitHistory demoTime 25
      { getSlice := none, hasSlice := false, isSliceLoading := true,
        repositoryConnected := true } = .stateMessage m) ∧
    renderPullRequests "open"
      { getSlice := none, hasSlice := false, isSliceLoading := false,
        repositoryConnected := true } = .unavailableView := by
  have h1 := panels_absent_slice_state demoTime 25 "open"
    { getSlice := none, hasSlice := false, isSliceLoading := true,
      repositoryConnected := true }
    { getSlice := none, hasSlice := false, isSliceLoading := false,
      repositoryConnected := true } (by decide) (by decide) (by decide)
  exact ⟨h1.1, h1.2.1 (by decide)⟩

/-! ## C3: the Merged / Closed status label -/

/-- C3 (counterexample): a closed pull request whose optional `merged_at`
field is left unset (`undefined`) is labelled `Merged` — the code tests
`pr.merged_at !== null`, and `undefined !== null` is true in JS — while
the claim demands `Closed` for it. -/
theorem prLabel_unset_merged_at_shows_merged :
    demoClosedUnsetPR.state = .closed ∧
    demoClosedUnsetPR.merged_at = none ∧
    prDetailStatusLabel demoClosedUnsetPR = "Merged" ∧
    prCardLabel demoClosedUnsetPR = some "Merged" ∧
    prDetailStatusLabel demoClosedUnsetPR ≠ "Closed" := by
  decide

/-- C3 (amended): for every closed pull request, both the list card and
the PR Detail panel label it `Merged` exactly when `merged_at` is not the
literal `null` (so a set date renders `Merged`, but so does an unset /
`undefined` field) and `Closed` exactly when `merged_at` is the literal
`null`; the two labels always agree. -/
theorem prLabel_characterization (pr : PullRequestInfo)
    (h : pr.state = .closed) :
    (prDetailStatusLabel pr = "Merged" ↔ pr.merged_at ≠ some none) ∧
    (prDetailStatusLabel pr = "Closed" ↔ pr.merged_at = some none) ∧
    prCardLabel pr = some (prDetailStatusLabel pr) := by
  have hno : ¬ pr.state = PRState.opened := by rw [h]; intro hc; cases hc
  unfold prDetailStatusLabel prCardLabel prIsMerged
  rcases hm : pr.merged_at with _ | om
  · simp [hno]
  · rcases om with _ | d <;> simp [hno]

/-- C3 (witness): the amended characterization applied to a concrete
merged PR and a concrete closed-unmerged PR. -/
theorem prLabel_characterization_witness :
    prDetailStatusLabel demoMergedPR = "Merged" ∧
    prDetailStatusLabel demoClosedNullPR = "Closed" := by
  have h1 := prLabel_characterization demoMergedPR (by decide)
  have h2 := prLabel_characterization demoClosedNullPR (by decide)
  exact ⟨h1.1.mpr (by decide), h2.2.1.mpr (by decide)⟩

/-! ## Helper lemmas about the relative-time buckets -/

theorem relTime_fdiv_minutes (d : Int) :
    Int.fdiv d (1000 * 60) = d / 60000 := by
  rw [Int.fdiv_eq_ediv _ (by norm_num)]; norm_num

theorem relTime_fdiv_hours (d : Int) :
    Int.fdiv (d / 60000) 60 = d / 3600000 := by
  rw [Int.fdiv_eq_ediv _ (by norm_num)]; omega

theorem relTime_fdiv_days (d : Int) :
    Int.fdiv (d / 3600000) 24 = d / 86400000 := by
  rw [Int.fdiv_eq_ediv _ (by norm_num)]; omega

theorem relTime_fdiv_months (d : Int) :
    Int.fdiv (d / 86400000) 30 = d / 2592000000 := by
  rw [Int.fdiv_eq_ediv _ (by norm_num)]; omega

theorem relTime_fdiv_years (d : Int) :
    Int.fdiv (d / 2592000000) 12 = d / 31104000000 := by
  rw [Int.fdiv_eq_ediv _ (by norm_num)]; omega

theorem relTime_just_now (d : Int) (h : d < 60000) :
    relTimeOfDiff d = "Just now" := by
  simp only [relTimeOfDiff, relTime_fdiv_minutes]
  rw [if_pos (by omega)]

theorem relTime_minutes_bucket (d : Int) (h1 : 60000 ≤ d)
    (h2 : d < 3600000) :
    relTimeOfDiff d = toString (d / 60000) ++ " minute" ++
      (if d / 60000 = 1 then "" else "s") ++ " ago" := by
  simp only [relTimeOfDiff, relTime_fdiv_minutes]
  rw [if_neg (by omega), if_pos (by omega)]

theorem relTime_hours_bucket (d : Int) (h1 : 3600000 ≤ d)
    (h2 : d < 86400000) :
    relTimeOfDiff d = toString (d / 3600000) ++ " hour" ++
      (if d / 3600000 = 1 then "" else "s") ++ " ago" := by
  simp only [relTimeOfDiff, relTime_fdiv_minutes, relTime_fdiv_hours]
  rw [if_neg (by omega), if_neg (by omega), if_pos (by omega)]

theorem relTime_yesterday_bucket (d : Int) (h1 : 86400000 ≤ d)
    (h2 : d < 172800000) : relTimeOfDiff d = "Yesterday" := by
  simp only [relTimeOfDiff, relTime_fdiv_minutes, relTime_fdiv_hours,
    relTime_fdiv_days]
  rw [if_neg (by omega), if_neg (by omega), if_neg (by omega),
    if_pos (by omega)]

theorem relTime_days_bucket (d : Int) (h1 : 172800000 ≤ d)
    (h2 : d < 2592000000) :
    relTimeOfDiff d = toString (d / 86400000) ++ " days ago" := by
  simp only [relTimeOfDiff, relTime_fdiv_minutes, relTime_fdiv_hours,
    relTime_fdiv_days]
  rw [if_neg (by omega), if_neg (by omega), if_neg (by omega),
    if_neg (by omega), if_pos (by omega)]

theorem relTime_months_bucket (d : Int) (h1 : 2592000000 ≤ d)
    (h2 : d < 31104000000) :
    relTimeOfDiff d = toString (d / 2592000000) ++ " month" ++
      (if d / 2592000000 = 1 then "" else "s") ++ " ago" := by
  simp only [relTimeOfDiff, relTime_fdiv_minutes, relTime_fdiv_hours,
    relTime_fdiv_days, relTime_fdiv_months]
  rw [if_neg (by omega), if_neg (by omega), if_neg (by omega),
    if_neg (by omega), if_neg (by omega), if_pos (by omega)]

theorem relTime_years_bucket (d : Int) (h1 : 31104000000 ≤ d) :
    relTimeOfDiff d = toString (d / 31104000000) ++ " year" ++
      (if d / 31104000000 = 1 then "" else "s") ++ " ago" := by
  simp only [relTimeOfDiff, relTime_fdiv_minutes, relTime_fdiv_hours,
    relTime_fdiv_days, relTime_fdiv_months, relTime_fdiv_years]
  rw [if_neg (by omega), if_neg (by omega), if_neg (by omega),
    if_neg (by omega), if_neg (by omega), if_neg (by omega)]

/-! ## C4: `formatRelativeTime` bucketing -/

/-- C4 (confirmed): a missing or empty or unparsable date string yields
`Unknown`; otherwise the result depends only on the elapsed milliseconds
`d = now - parsed`, and with counts computed by floor division, elapsed
time under 1 minute yields `Just now`, under 60 minutes `N minute(s) ago`,
under 24 hours `N hour(s) ago`, exactly 1 floored day `Yesterday`, under
30 days `N days ago`, under 12 floored 30-day months `N month(s) ago`,
and otherwise `N year(s) ago`; every boundary value belongs to the lower
bucket (the bounds below are sharp). -/
theorem formatRelativeTime_buckets (parse : String → Option Int)
    (now : Int) :
    formatRelativeTime parse now none = "Unknown" ∧
    formatRelativeTime parse now (some "") = "Unknown" ∧
    (∀ s, parse s = none →
      formatRelativeTime parse now (some s) = "Unknown") ∧
    (∀ s t, s ≠ "" → parse s = some t →
      formatRelativeTime parse now (some s) = relTimeOfDiff (now - t)) ∧
    (∀ d : Int, d < 60000 → relTimeOfDiff d = "Just now") ∧
    (∀ d : Int, 60000 ≤ d → d < 3600000 →
      relTimeOfDiff d = toString (d / 60000) ++ " minute" ++
        (if d / 60000 = 1 then "" else "s") ++ " ago") ∧
    (∀ d : Int, 3600000 ≤ d → d < 86400000 →
      relTimeOfDiff d = toString (d / 3600000) ++ " hour" ++
        (if d / 3600000 = 1 then "" else "s") ++ " ago") ∧
    (∀ d : Int, 86400000 ≤ d → d < 172800000 →
      relTimeOfDiff d = "Yesterday") ∧
    (∀ d : Int, 172800000 ≤ d → d < 2592000000 →
      relTimeOfDiff d = toString (d / 86400000) ++ " days ago") ∧
    (∀ d : Int, 2592000000 ≤ d → d < 31104000000 →
      relTimeOfDiff d = toString (d / 2592000000) ++ " month" ++
        (if d / 2592000000 = 1 then "" else "s") ++ " ago") ∧
    (∀ d : Int, 31104000000 ≤ d →
      relTimeOfDiff d = toString (d / 31104000000) ++ " year" ++
        (if d / 31104000000 = 1 then "" else "s") ++ " ago") := by
  refine ⟨rfl, rfl, ?_, ?_, relTime_just_now, relTime_minutes_bucket,
    relTime_hours_bucket, relTime_yesterday_bucket, relTime_days_bucket,
    relTime_months_bucket, relTime_years_bucket⟩
  · intro s hp
    by_cases hs : s = "" <;> simp [formatRelativeTime, hs, hp]
  · intro s t hs hp
    simp [formatRelativeTime, hs, hp]

/-- C4 (witness): the bucket theorem applied at the boundary examples the
claim lists — 59 s, 61 s, 3660 s and 90000 s — and at an unparsable
string. -/
theorem formatRelativeTime_buckets_witness :
    formatRelativeTime (fun _ => some 0) 59000 (some "t") = "Just now" ∧
    formatRelativeTime (fun _ => some 0) 61000 (some "t")
      = "1 minute ago" ∧
    formatRelativeTime (fun _ => some 0) 3660000 (some "t")
      = "1 hour ago" ∧
    formatRelativeTime (fun _ => some 0) 90000000 (some "t")
      = "Yesterday" ∧
    formatRelativeTime (fun _ => none) 0 (some "not a date")
      = "Unknown" := by
  obtain ⟨-, -, hbad, hok, hjust, hmin, hhour, hyest, -, -, -⟩ :=
    formatRelativeTime_buckets (fun _ => some 0) 59000
  refine ⟨?_, ?_, ?_, ?_, ?_⟩
  · rw [hok "t" 0 (by decide) rfl]
    exact (formatRelativeTime_buckets (fun _ => some 0) 0).2.2.2.2.1
      (59000 - 0) (by decide)
  · rw [(formatRelativeTime_buckets (fun _ => some 0) 61000).2.2.2.1
      "t" 0 (by decide) rfl]
    rw [(formatRelativeTime_buckets (fun _ => some 0) 61000).2.2.2.2.2.1
      (61000 - 0) (by decide) (by decide)]
    decide
  · rw [(formatRelativeTime_buckets (fun _ => some 0) 3660000).2.2.2.1
      "t" 0 (by decide) rfl]
    rw [(formatRelativeTime_buckets (fun _ => some 0)
      3660000).2.2.2.2.2.2.1 (3660000 - 0) (by decide) (by decide)]
    decide
  · rw [(formatRelativeTime_buckets (fun _ => some 0) 90000000).2.2.2.1
      "t" 0 (by decide) rfl]
    exact (formatRelativeTime_buckets (fun _ => some 0)
      90000000).2.2.2.2.2.2.2.1 (90000000 - 0) (by decide) (by decide)
  · exact (formatRelativeTime_buckets (fun _ => none) 0).2.2.1
      "not a date" rfl

/-! ## C5: the Commit Detail panel state machine -/

theorem jsOrString_ne_empty (s : Option String) (dflt : String)
    (h : dflt ≠ "") : jsOrString s dflt ≠ "" := by
  unfold jsOrString
  rcases s with _ | v
  · exact h
  · by_cases hv : v = "" <;> simp [hv, h]

/-- C5 (confirmed): from any state, processing `:loading` then
`:loaded {commit}` leaves the panel displaying that commit's message
title, the first 8 characters of its hash, and its stats; subsequently
processing `:error {error: "X"}` (with a non-empty message) moves it to
the error display with message `X`; no inbound event can bring a
non-empty display back to the empty display; and the local close action,
from any non-loading state, yields the empty display and emits exactly
the `commit:deselected` event. -/
theorem detailPanel_state_machine :
    (∀ (s0 : DetailState) (h : String) (c : GitCommitDetail),
      renderDetail (detailStep (detailStep s0 (.loading h))
          (.loaded (some c)))
        = .loadedView (c.hash.take 8) (firstLineOf c.message) c.stats) ∧
    (∀ (s0 : DetailState) (h h2 : String) (c : GitCommitDetail)
      (x : String), x ≠ "" →
      renderDetail (detailStep (detailStep (detailStep s0 (.loading h))
          (.loaded (some c))) (.errored h2 (some x))) = .errorView x) ∧
    (∀ (s : DetailState) (e : DetailEvent),
      renderDetail s ≠ .emptyView →
        renderDetail (detailStep s e) ≠ .emptyView) ∧
    (∀ s : DetailState, s.isLoading = false →
      renderDetail (detailClose s).fst = .emptyView ∧
      (detailClose s).snd = ["git-panels.commit:deselected"]) := by
  refine ⟨?_, ?_, ?_, ?_⟩
  · intro s0 h c
    simp [detailStep, renderDetail, strTruthy]
  · intro s0 h h2 c x hx
    simp [detailStep, renderDetail, strTruthy, jsOrString, hx]
  · intro s e hne
    cases e with
    | loading h => simp [detailStep, renderDetail]
    | loaded c =>
      cases c with
      | none => exact hne
      | some commit => simp [detailStep, renderDetail, strTruthy]
    | errored h eo =>
      have hmsg : jsOrString eo "Failed to load commit" ≠ "" :=
        jsOrString_ne_empty eo _ (by decide)
      simp [detailStep, renderDetail, strTruthy, hmsg]
  · intro s hs
    refine ⟨?_, rfl⟩
    simp [detailClose, renderDetail, strTruthy, hs]

/-- C5 (witness): the state-machine theorem applied to the initial state
with a concrete commit detail and the error message `X`. -/
theorem detailPanel_state_machine_witness :
    renderDetail (detailStep (detailStep initialDetailState
        (.loading "0123")) (.loaded (some demoCommitDetail)))
      = .loadedView "01234567" "feat: add detail panel"
        { additions := 3, deletions := 1, total := 4 } ∧
    renderDetail (detailStep (detailStep (detailStep initialDetailState
        (.loading "0123")) (.loaded (some demoCommitDetail)))
        (.errored "0123" (some "X"))) = .errorView "X" := by
  obtain ⟨h1, h2, -, -⟩ := detailPanel_state_machine
  constructor
  · rw [h1 initialDetailState "0123" demoCommitDetail]
    decide
  · exact h2 initialDetailState "0123" "0123" demoCommitDetail "X"
      (by decide)

/-! ## C6: the `pull-requests:set-filter` handler -/

/-- C6 (counterexample): the two-filter revision of the Pull Requests
panel (`src/panels/GitPullRequestsPanel.tsx`, `['open', 'closed']`)
ignores an `all` payload: with the filter at `open`, receiving
`{filter: 'all'}` leaves it at `open` instead of setting it to `all` as
the claim demands. -/
theorem setFilter_all_ignored_in_two_filter_revision :
    setFilterStepV1 "open" (some "all") = "open" ∧
    setFilterStepV1 "open" (some "all") ≠ "all" := by
  decide

/-- C6 (amended): in the three-filter revision a `set-filter` payload of
`open`, `closed` or `all` sets the filter to that value (with `all`
displaying every PR in the slice) and any other payload leaves it
unchanged; in the two-filter revision only `open` and `closed` are
accepted — an `all` payload, like any other unrecognized payload, leaves
the filter unchanged. -/
theorem setFilter_characterization (cur : String) :
    (∀ f, f = "all" ∨ f = "open" ∨ f = "closed" →
      setFilterStepV2 cur (some f) = f) ∧
    (∀ f, f ≠ "all" → f ≠ "open" → f ≠ "closed" →
      setFilterStepV2 cur (some f) = cur) ∧
    setFilterStepV2 cur none = cur ∧
    (∀ prs, filteredPullRequestsV2 "all" prs = prs) ∧
    (∀ f, f = "open" ∨ f = "closed" →
      setFilterStepV1 cur (some f) = f) ∧
    setFilterStepV1 cur (some "all") = cur ∧
    (∀ f, f ≠ "open" → f ≠ "closed" →
      setFilterStepV1 cur (some f) = cur) ∧
    setFilterStepV1 cur none = cur := by
  refine ⟨?_, ?_, rfl, ?_, ?_, ?_, ?_, rfl⟩
  · rintro f (rfl | rfl | rfl) <;> rfl
  · intro f h1 h2 h3
    simp [setFilterStepV2, h1, h2, h3]
  · intro prs
    simp [filteredPullRequestsV2]
  · rintro f (rfl | rfl) <;> rfl
  · rfl
  · intro f h1 h2
    simp [setFilterStepV1, h1, h2]

/-- C6 (witness): the characterization applied at concrete payloads. -/
theorem setFilter_characterization_witness :
    setFilterStepV2 "open" (some "all") = "all" ∧
    setFilterStepV2 "open" (some "bogus") = "open" ∧
    setFilterStepV1 "open" (some "closed") = "closed" := by
  have h := setFilter_characterization "open"
  exact ⟨h.1 "all" (Or.inl rfl),
    h.2.1 "bogus" (by decide) (by decide) (by decide),
    h.2.2.2.2.1 "closed" (Or.inr rfl)⟩

/-! ## C7: the badge counts sum to the total -/

/-- C7 (confirmed): for every pull-requests slice array, the `open` badge
count plus the `closed` badge count equals the total number of PRs, which
is both the `all` badge count and the number of PRs displayed when the
filter is `all`. -/
theorem prCounts_sum (prs : List PullRequestInfo) :
    countOpen prs + countClosed prs = countAll prs ∧
    countAll prs = (filteredPullRequestsV2 "all" prs).length := by
  constructor
  · induction prs with
    | nil => rfl
    | cons pr rest ih =>
      cases h : pr.state <;>
        simp [countOpen, countClosed, countAll, List.filter_cons, h] <;>
        simp [countOpen, countClosed, countAll] at ih <;> omega
  · simp [filteredPullRequestsV2, countAll]

/-! ## C8: rejected refresh promises are swallowed -/

/-- C8 (confirmed): for every panel UI state and every outcome of the
host's `refresh()` promise, the refresh handler returns normally — no
exception escapes — with the UI state unchanged; a rejection produces
exactly one log line and a resolution produces none. -/
theorem handleRefresh_swallows {σ : Type} (logTag : String) (ui : σ)
    (r : Except String Unit) :
    (∀ e, r = .error e → handleRefresh logTag ui r
      = .ok (ui, [logTag ++ "Refresh failed: " ++ e])) ∧
    (r = .ok () → handleRefresh logTag ui r = .ok (ui, [])) ∧
    ∃ logs, handleRefresh logTag ui r = .ok (ui, logs) := by
  refine ⟨?_, ?_, ?_⟩
  · rintro e rfl; rfl
  · rintro rfl; rfl
  · cases r with
    | ok u => exact ⟨[], rfl⟩
    | error e => exact ⟨[logTag ++ "Refresh failed: " ++ e], rfl⟩

/-- C8 (witness): the refresh handler applied to a rejected promise with
a concrete panel state. -/
theorem handleRefresh_swallows_witness :
    handleRefresh "[GitCommitHistoryPanel] " (25 : Nat)
      (.error "network down")
      = .ok (25, ["[GitCommitHistoryPanel] Refresh failed: network down"])
      := by
  exact (handleRefresh_swallows "[GitCommitHistoryPanel] " 25
    (.error "network down")).1 "network down" rfl

/-! ## C9: the tri-state boolean config indicator -/

/-- C9 (confirmed): for every boolean-valued configuration value, the
indicator reads `Enabled` exactly when the value is `true` or the string
`'true'`, `Disabled` exactly when it is `false` or the string `'false'`,
and `Not set` exactly when it is `undefined`; in particular the
explicitly-disabled and never-set cases are rendered differently. -/
theorem booleanConfigIndicator_tristate (v : Option ConfigValue)
    (h : IsBooleanValued v) :
    (booleanConfigIndicator v = "Enabled" ↔
      v = some (.bool true) ∨ v = some (.str "true")) ∧
    (booleanConfigIndicator v = "Disabled" ↔
      v = some (.bool false) ∨ v = some (.str "false")) ∧
    (booleanConfigIndicator v = "Not set" ↔ v = none) := by
  rcases h with h | ⟨b, h⟩ | h | h
  · subst h; decide
  · subst h; cases b <;> decide
  · subst h; decide
  · subst h; decide

/-- C9 (witness): the tri-state characterization applied at `false` and
at `undefined`, showing the two cases render differently. -/
theorem booleanConfigIndicator_tristate_witness :
    booleanConfigIndicator (some (.bool false)) = "Disabled" ∧
    booleanConfigIndicator none = "Not set" ∧
    booleanConfigIndicator (some (.bool false))
      ≠ booleanConfigIndicator none := by
  have h1 := booleanConfigIndicator_tristate (some (.bool false))
    (Or.inr (Or.inl ⟨false, rfl⟩))
  have h2 := booleanConfigIndicator_tristate none (Or.inl rfl)
  have e1 := h1.2.1.mpr (Or.inl rfl)
  have e2 := h2.2.2.mpr rfl
  refine ⟨e1, e2, ?_⟩
  rw [e1, e2]
  decide

/-! ## C10: the `set-limit` guard -/

/-- C10 (confirmed): the commit display limit starts at 25 and a
`set-limit` event updates it exactly when the payload carries a numeric
limit strictly greater than 0; a missing payload, zero, a negative value
or `NaN` leave it unchanged, and no upper bound is enforced — any
positive value, including values above 100, is accepted. -/
theorem setLimitStep_characterization (cur : JsNum) :
    initialCommitLimit = .num 25 ∧
    setLimitStep cur none = cur ∧
    (∀ q : ℚ, 0 < q → setLimitStep cur (some (.num q)) = .num q) ∧
    (∀ q : ℚ, q ≤ 0 → setLimitStep cur (some (.num q)) = cur) ∧
    setLimitStep cur (some .nan) = cur ∧
    (∀ q : ℚ, 100 < q → setLimitStep cur (some (.num q)) = .num q) := by
  have hstep : ∀ q : ℚ, 0 < q →
      setLimitStep cur (some (.num q)) = .num q := by
    intro q hq
    have h1 : (q != 0) = true := by simp [hq.ne']
    have h2 : decide (0 < q) = true := by simp [hq]
    simp [setLimitStep, jsTruthy, jsGtZero, h1, h2]
  refine ⟨rfl, rfl, hstep, ?_, rfl, fun q hq => hstep q (by linarith)⟩
  intro q hq
  have h2 : decide (0 < q) = false := by simp; linarith
  simp [setLimitStep, jsTruthy, jsGtZero, h2]

/-- C10 (witness): the guard applied at the payloads the claim lists,
starting from the initial limit of 25. -/
theorem setLimitStep_characterization_witness :
    setLimitStep initialCommitLimit (some (.num 500)) = .num 500 ∧
    setLimitStep initialCommitLimit (some (.num 0)) = initialCommitLimit ∧
    setLimitStep initialCommitLimit (some (.num (-3)))
      = initialCommitLimit ∧
    setLimitStep initialCommitLimit (some .nan) = initialCommitLimit ∧
    setLimitStep initialCommitLimit none = initialCommitLimit := by
  have h := setLimitStep_characterization initialCommitLimit
  exact ⟨h.2.2.2.2.2 500 (by norm_num), h.2.2.2.1 0 le_rfl,
    h.2.2.2.1 (-3) (by norm_num), h.2.2.2.2.1, h.2.1⟩
